import Mathlib

/-!
Verification of the koko-voice real-time voice session and throttling engine.

This file contains a shallow embedding of the core operations of the
repository and proofs about them:

* `src/utils/audio-processor.ts` — `AudioProcessor.discordToGemini`,
  `AudioProcessor.geminiToDiscord`, `AudioProcessor.applyNoiseGate`.
  Buffers are modelled as lists of bytes (`List Nat`, each element a byte
  value); `readInt16LE` / `int16ToBytes` model Node's little-endian 16-bit
  reads and writes.  Node's floating point index arithmetic is exact on the
  integer values that occur here, so it is modelled with natural-number
  floor division.
* `src/util/smartResponseManager.ts` — the `SmartResponseManager` class.
  The mutable class instance becomes an explicit state record passed and
  returned by each operation; `Date.now()` becomes an explicit `now`
  argument; `Math.random()` becomes an explicit rational sample `rand`
  compared against the configured chance exactly as the source compares.
* the `VoiceActivityDetector` class (`onVoiceEnd`) and
  `DiscordVoiceService.subscribeToUser` from `src/services/discord-voice.ts`.
-/

/-- Point update of a string-keyed map (models `Map.set` / `Map.delete`:
`v = some x` is `set`, `v = none` is `delete`). -/
def upd {α : Type} (m : String → Option α) (k : String) (v : Option α) :
    String → Option α :=
  fun x => if x = k then v else m x

theorem upd_self {α : Type} (m : String → Option α) (k : String) (v : Option α) :
    upd m k v k = v := by
  simp [upd]

theorem upd_other {α : Type} (m : String → Option α) (k : String) (v : Option α)
    (x : String) (h : x ≠ k) : upd m k v x = m x := by
  simp [upd, h]

/-! ### Byte-level PCM buffer primitives -/

/-- Models Node's `buffer.readInt16LE(i)`: two bytes, low byte first,
decoded as a signed 16-bit integer.  Out-of-range indices read as 0
(the source never reaches them: every read is guarded). -/
def readInt16LE (buf : List Nat) (i : Nat) : Int :=
  let u := buf.getD i 0 + 256 * buf.getD (i + 1) 0
  if u < 32768 then (u : Int) else (u : Int) - 65536

/-- Models Node's `buffer.writeInt16LE(v, _)`: the two bytes written,
low byte first (`v` is reduced mod 2^16 into two's complement form). -/
def int16ToBytes (v : Int) : List Nat :=
  let u := (v % 65536).toNat
  [u % 256, u / 256]

/-- `Math.max(-32768, Math.min(32767, v))` from the source. -/
def clampI16 (v : Int) : Int := max (-32768) (min 32767 v)

theorem int16ToBytes_length (v : Int) : (int16ToBytes v).length = 2 := rfl

theorem clampI16_le (v : Int) : clampI16 v ≤ 32767 :=
  max_le (by norm_num) (min_le_left _ _)

theorem clampI16_ge (v : Int) : -32768 ≤ clampI16 v := le_max_left _ _

theorem readInt16LE_int16ToBytes (v : Int) (rest : List Nat)
    (h1 : -32768 ≤ v) (h2 : v ≤ 32767) :
    readInt16LE (int16ToBytes v ++ rest) 0 = v := by
  simp only [int16ToBytes, readInt16LE, List.cons_append, List.getD_cons_zero,
    List.getD_cons_succ]
  have hmd : (v % 65536).toNat % 256 + 256 * ((v % 65536).toNat / 256)
      = (v % 65536).toNat := Nat.mod_add_div _ _
  rw [hmd]
  split <;> omega

theorem readInt16LE_cons2 (a b : Nat) (rest : List Nat) (m : Nat) :
    readInt16LE (a :: b :: rest) (2 * (m + 1)) = readInt16LE rest (2 * m) := by
  have h1 : 2 * (m + 1) = 2 * m + 1 + 1 := by ring
  simp only [readInt16LE, h1, List.getD_cons_succ]

theorem bytes_lt_256 (buf : List Nat) (h : ∀ b ∈ buf, b < 256) (i : Nat) :
    buf.getD i 0 < 256 := by
  induction buf generalizing i with
  | nil => simp [List.getD]
  | cons a l ih =>
    cases i with
    | zero => exact h a (by simp)
    | succ j =>
      simp only [List.getD_cons_succ]
      exact ih (fun b hb => h b (by simp [hb])) j

theorem readInt16LE_range (buf : List Nat) (h : ∀ b ∈ buf, b < 256) (i : Nat) :
    -32768 ≤ readInt16LE buf i ∧ readInt16LE buf i ≤ 32767 := by
  have h1 := bytes_lt_256 buf h i
  have h2 := bytes_lt_256 buf h (i + 1)
  simp only [readInt16LE]
  split <;> omega

/-! ### `AudioProcessor.discordToGemini`

Source constants: `inputRate = 48000`, `outputRate = 16000`,
`inputChannels = 2`, `outputChannels = 1`, `bytesPerSample = 2`. -/

/-- One iteration body of the `discordToGemini` loop: read the stereo frame
at source sample index `Math.floor((i * inputRate) / outputRate)`, mix the
two channels by arithmetic mean (`Math.floor((left + right) / 2)`, floor
division) and clamp to the signed 16-bit range. -/
def d2gSample (buf : List Nat) (i : Nat) : Int :=
  let inputByteIndex := i * 48000 / 16000 * (2 * 2)
  let left := readInt16LE buf inputByteIndex
  let right := readInt16LE buf (inputByteIndex + 2)
  clampI16 ((left + right).fdiv 2)

/-- The `for` loop of `discordToGemini`, writing one mono sample per output
index.  The output buffer is pre-allocated with zero bytes and the loop
`break`s when a read would leave the input buffer, so after a break the
remaining output bytes stay zero (modelled by the `List.replicate`). -/
def d2gGo (buf : List Nat) : Nat → Nat → List Nat
  | 0, _ => []
  | k + 1, i =>
    if buf.length ≤ i * 48000 / 16000 * (2 * 2) + (2 * 2 - 1) then
      List.replicate ((k + 1) * 2) 0
    else
      int16ToBytes (d2gSample buf i) ++ d2gGo buf k (i + 1)

/-- `AudioProcessor.discordToGemini`: 48 kHz 2-channel 16-bit PCM to
16 kHz mono 16-bit PCM.  Returns the empty buffer when the input is
shorter than one input frame (`bytesPerSample * inputChannels` bytes).
`outputSamples = Math.floor(inputSamples * outputRate / inputRate)` with
`inputSamples = length / (bytesPerSample * inputChannels)`; the JS float
arithmetic is exact here, equal to the single natural floor division
below. -/
def discordToGemini (audioBuffer : List Nat) : List Nat :=
  if audioBuffer.length < 2 * 2 then []
  else d2gGo audioBuffer (audioBuffer.length * 16000 / (2 * 2 * 48000)) 0

/-! ### `AudioProcessor.geminiToDiscord`

Source constants: `inputRate = 24000`, `outputRate = 48000`,
`inputChannels = 1`, `outputChannels = 2`, `bytesPerSample = 2`. -/

/-- The `for` loop of `geminiToDiscord`: read the mono sample at source
index `Math.floor((i * inputRate) / outputRate)` and duplicate it to the
left and right output channels; `break` (leaving zeros) when the read
would leave the buffer. -/
def g2dGo (buf : List Nat) : Nat → Nat → List Nat
  | 0, _ => []
  | k + 1, i =>
    if buf.length ≤ i * 24000 / 48000 * 2 + (2 - 1) then
      List.replicate ((k + 1) * (2 * 2)) 0
    else
      int16ToBytes (readInt16LE buf (i * 24000 / 48000 * 2)) ++
        int16ToBytes (readInt16LE buf (i * 24000 / 48000 * 2)) ++ g2dGo buf k (i + 1)

/-- `AudioProcessor.geminiToDiscord`: 24 kHz mono 16-bit PCM to 48 kHz
2-channel 16-bit PCM.  Empty result for inputs shorter than one sample. -/
def geminiToDiscord (audioBuffer : List Nat) : List Nat :=
  if audioBuffer.length < 2 then []
  else g2dGo audioBuffer (audioBuffer.length * 48000 / (2 * 24000)) 0

/-! ### `AudioProcessor.applyNoiseGate` -/

/-- The ternary in the noise-gate loop:
`Math.abs(sample) < threshold ? 0 : sample`. -/
def gatedSample (v : Int) (threshold : Int) : Int :=
  if |v| < threshold then 0 else v

/-- The noise-gate loop: the `Int16Array` view exposes
`Math.floor(length / 2)` aligned little-endian samples; each is gated and
written back at the same sample index. -/
def gateGo (buf : List Nat) (threshold : Int) : Nat → Nat → List Nat
  | 0, _ => []
  | k + 1, i =>
    int16ToBytes (gatedSample (readInt16LE buf (2 * i)) threshold) ++
      gateGo buf threshold k (i + 1)

/-- `AudioProcessor.applyNoiseGate`: returns the input unchanged when it is
empty, otherwise allocates a fresh buffer of the same byte length and
writes the gated samples; with an odd byte length the final allocated byte
is never written and stays zero. -/
def applyNoiseGate (audioBuffer : List Nat) (threshold : Int) : List Nat :=
  if audioBuffer.length = 0 then audioBuffer
  else
    gateGo audioBuffer threshold (audioBuffer.length / 2) 0 ++
      List.replicate (audioBuffer.length - 2 * (audioBuffer.length / 2)) 0

example : discordToGemini (List.replicate 48 0) = List.replicate 8 0 := by decide
example : (geminiToDiscord (discordToGemini (List.replicate 48 0))).length = 32 := by decide
example : applyNoiseGate [10, 0, 244, 1] 500 = [0, 0, 244, 1] := by decide

/-! ### Length and sample lemmas for the converters -/

theorem d2gGo_length (buf : List Nat) :
    ∀ k i, (d2gGo buf k i).length = 2 * k := by
  intro k
  induction k with
  | zero => intro i; simp [d2gGo]
  | succ k ih =>
    intro i
    simp only [d2gGo]
    split
    · simp [List.length_replicate]; ring
    · simp [List.length_append, int16ToBytes_length, ih]; ring

theorem g2dGo_length (buf : List Nat) :
    ∀ k i, (g2dGo buf k i).length = 4 * k := by
  intro k
  induction k with
  | zero => intro i; simp [g2dGo]
  | succ k ih =>
    intro i
    simp only [g2dGo]
    split
    · simp [List.length_replicate]; ring
    · simp [List.length_append, int16ToBytes_length, ih]; ring

theorem gateGo_length (buf : List Nat) (threshold : Int) :
    ∀ k i, (gateGo buf threshold k i).length = 2 * k := by
  intro k
  induction k with
  | zero => intro i; simp [gateGo]
  | succ k ih =>
    intro i
    simp only [gateGo]
    simp [List.length_append, int16ToBytes_length, ih]
    ring

theorem discordToGemini_length (buf : List Nat) :
    (discordToGemini buf).length = 2 * (buf.length / 12) := by
  simp only [discordToGemini]
  split
  · rename_i h
    have : buf.length / 12 = 0 := by omega
    simp [this]
  · rw [d2gGo_length]
    congr 1
    omega

theorem geminiToDiscord_length (buf : List Nat) (h : ¬ buf.length < 2) :
    (geminiToDiscord buf).length = 4 * buf.length := by
  simp only [geminiToDiscord, if_neg h]
  rw [g2dGo_length]
  congr 1
  omega

theorem d2gGo_sample (buf : List Nat) :
    ∀ k i m, m < k → (∀ j, j < i + k → 12 * j + 3 < buf.length) →
      readInt16LE (d2gGo buf k i) (2 * m) = d2gSample buf (i + m) := by
  intro k
  induction k with
  | zero => intro i m hm; omega
  | succ k ih =>
    intro i m hm hno
    have hguard : ¬ buf.length ≤ i * 48000 / 16000 * (2 * 2) + (2 * 2 - 1) := by
      have h := hno i (by omega)
      have h3 : i * 48000 / 16000 = 3 * i := by omega
      rw [h3]
      omega
    simp only [d2gGo, if_neg hguard]
    cases m with
    | zero =>
      have hr := readInt16LE_int16ToBytes (d2gSample buf i) (d2gGo buf k (i + 1))
        (clampI16_ge _) (clampI16_le _)
      simpa using hr
    | succ m =>
      have hch : int16ToBytes (d2gSample buf i) ++ d2gGo buf k (i + 1)
          = ((d2gSample buf i % 65536).toNat % 256)
            :: ((d2gSample buf i % 65536).toNat / 256) :: d2gGo buf k (i + 1) := by
        simp [int16ToBytes]
      rw [hch, readInt16LE_cons2]
      rw [ih (i + 1) m (by omega) (fun j hj => hno j (by omega))]
      congr 1
      omega

theorem gateGo_sample (buf : List Nat) (threshold : Int)
    (hr1 : ∀ j, -32768 ≤ readInt16LE buf (2 * j))
    (hr2 : ∀ j, readInt16LE buf (2 * j) ≤ 32767) :
    ∀ k i m, m < k →
      readInt16LE (gateGo buf threshold k i) (2 * m)
        = gatedSample (readInt16LE buf (2 * (i + m))) threshold := by
  intro k
  induction k with
  | zero => intro i m hm; omega
  | succ k ih =>
    intro i m hm
    simp only [gateGo]
    have hrange : -32768 ≤ gatedSample (readInt16LE buf (2 * i)) threshold ∧
        gatedSample (readInt16LE buf (2 * i)) threshold ≤ 32767 := by
      simp only [gatedSample]
      split
      · omega
      · exact ⟨hr1 i, hr2 i⟩
    cases m with
    | zero =>
      have hr := readInt16LE_int16ToBytes
        (gatedSample (readInt16LE buf (2 * i)) threshold)
        (gateGo buf threshold k (i + 1)) hrange.1 hrange.2
      simpa using hr
    | succ m =>
      have hch : int16ToBytes (gatedSample (readInt16LE buf (2 * i)) threshold)
            ++ gateGo buf threshold k (i + 1)
          = ((gatedSample (readInt16LE buf (2 * i)) threshold % 65536).toNat % 256)
            :: ((gatedSample (readInt16LE buf (2 * i)) threshold % 65536).toNat / 256)
            :: gateGo buf threshold k (i + 1) := by
        simp [int16ToBytes]
      rw [hch, readInt16LE_cons2]
      rw [ih (i + 1) m (by omega)]
      congr 2
      omega

theorem int16ToBytes_bytes_lt (v : Int) : ∀ b ∈ int16ToBytes v, b < 256 := by
  intro b hb
  have hlt : (v % 65536).toNat < 65536 := by omega
  simp only [int16ToBytes, List.mem_cons, List.mem_singleton] at hb
  rcases hb with h | h | h
  · subst h; exact Nat.mod_lt _ (by norm_num)
  · subst h; omega
  · cases h

theorem d2gGo_bytes_lt (buf : List Nat) :
    ∀ k i, ∀ b ∈ d2gGo buf k i, b < 256 := by
  intro k
  induction k with
  | zero => intro i b hb; simp [d2gGo] at hb
  | succ k ih =>
    intro i b hb
    simp only [d2gGo] at hb
    split at hb
    · rw [List.eq_of_mem_replicate hb]; norm_num
    · rcases List.mem_append.1 hb with h | h
      · exact int16ToBytes_bytes_lt _ b h
      · exact ih (i + 1) b h

theorem g2dGo_bytes_lt (buf : List Nat) :
    ∀ k i, ∀ b ∈ g2dGo buf k i, b < 256 := by
  intro k
  induction k with
  | zero => intro i b hb; simp [g2dGo] at hb
  | succ k ih =>
    intro i b hb
    simp only [g2dGo] at hb
    split at hb
    · rw [List.eq_of_mem_replicate hb]; norm_num
    · rcases List.mem_append.1 hb with h | h
      · rcases List.mem_append.1 h with h2 | h2 <;>
          exact int16ToBytes_bytes_lt _ b h2
      · exact ih (i + 1) b h

theorem geminiToDiscord_bytes_lt (buf : List Nat) :
    ∀ b ∈ geminiToDiscord buf, b < 256 := by
  intro b hb
  simp only [geminiToDiscord] at hb
  split at hb
  · cases hb
  · exact g2dGo_bytes_lt buf _ 0 b hb

/-- Claim C1 (corrected): the `discordToGemini` / `geminiToDiscord` round
trip does NOT preserve duration to within one frame: `discordToGemini`
produces 16 kHz audio while `geminiToDiscord` assumes its input is 24 kHz,
so the round trip scales the frame count by 16000/24000 = 2/3.  This is
the amended, exact statement: for every input buffer the round trip yields
`8 * (length / 12)` output bytes, i.e. `2 * floor(s / 3)` output frames
for `s` complete input frames (duration scaled by 2/3, accurate to within
two frames), and both conversions are total with all output bytes
well-formed (below 256, i.e. no write ever throws). -/
theorem c1_round_trip_duration (buf : List Nat) :
    (geminiToDiscord (discordToGemini buf)).length = 8 * (buf.length / 12) ∧
    ∀ b ∈ geminiToDiscord (discordToGemini buf), b < 256 := by
  constructor
  · have h1 := discordToGemini_length buf
    by_cases h : buf.length / 12 = 0
    · have hz : (discordToGemini buf).length = 0 := by rw [h1, h]
      have hnil : discordToGemini buf = [] := List.eq_nil_of_length_eq_zero hz
      rw [hnil, h]
      simp [geminiToDiscord]
    · have h2 : ¬ (discordToGemini buf).length < 2 := by omega
      rw [geminiToDiscord_length _ h2, h1]
      ring
  · exact geminiToDiscord_bytes_lt _

/-- Claim C1 counterexample: a valid 48-byte platform buffer (12 frames of
48 kHz stereo 16-bit PCM) round trips to a 32-byte buffer (8 frames), a
duration loss of 4 frames, so duration is not preserved to within one
frame. -/
theorem c1_round_trip_counterexample :
    (geminiToDiscord (discordToGemini (List.replicate 48 0))).length / (2 * 2) + 1
      < (List.replicate 48 (0 : Nat)).length / (2 * 2) := by decide

/-- Claim C6: `discordToGemini` computes output sample `i` from the source
frame at sample index `floor(i * 48000 / 16000)` (byte index `12 * i`),
down-mixes the stereo frame by arithmetic mean (floor division by 2),
clamps to the signed 16-bit range, truncates a final partial frame via the
floored output-sample count instead of reading out of bounds, and returns
an empty buffer (not an error) for inputs shorter than one frame. -/
theorem c6_discordToGemini_correct (buf : List Nat) (i : Nat) :
    (buf.length < 2 * 2 → discordToGemini buf = []) ∧
    (discordToGemini buf).length = 2 * (buf.length / 12) ∧
    (i < buf.length / 12 →
      readInt16LE (discordToGemini buf) (2 * i)
        = clampI16 ((readInt16LE buf (12 * i) + readInt16LE buf (12 * i + 2)).fdiv 2)) := by
  refine ⟨fun h => by simp [discordToGemini, h], discordToGemini_length buf, fun hi => ?_⟩
  have hL : ¬ buf.length < 2 * 2 := by omega
  simp only [discordToGemini, if_neg hL]
  have hno : ∀ j, j < 0 + buf.length * 16000 / (2 * 2 * 48000) →
      12 * j + 3 < buf.length := by omega
  have hm : i < buf.length * 16000 / (2 * 2 * 48000) := by omega
  rw [d2gGo_sample buf _ 0 i hm hno]
  simp only [d2gSample]
  have h12 : (0 + i) * 48000 / 16000 * (2 * 2) = 12 * i := by omega
  rw [h12]

/-- Claim C6 witness: a concrete 12-byte buffer (samples 1,2,3,4,5,6 as
stereo frames) has its first output sample equal to the clamped mean of
samples 1 and 2, and a 1-byte buffer converts to the empty buffer. -/
theorem c6_witness :
    (0 < ([1, 0, 2, 0, 3, 0, 4, 0, 5, 0, 6, 0] : List Nat).length / 12 ∧
      readInt16LE (discordToGemini [1, 0, 2, 0, 3, 0, 4, 0, 5, 0, 6, 0]) (2 * 0)
        = clampI16 ((readInt16LE [1, 0, 2, 0, 3, 0, 4, 0, 5, 0, 6, 0] (12 * 0)
            + readInt16LE [1, 0, 2, 0, 3, 0, 4, 0, 5, 0, 6, 0] (12 * 0 + 2)).fdiv 2)) ∧
    (([0] : List Nat).length < 2 * 2 ∧ discordToGemini [0] = []) :=
  ⟨⟨by decide, (c6_discordToGemini_correct [1, 0, 2, 0, 3, 0, 4, 0, 5, 0, 6, 0] 0).2.2
      (by decide)⟩,
   by decide, (c6_discordToGemini_correct [0] 0).1 (by decide)⟩

theorem readInt16LE_append (xs ys : List Nat) (j : Nat) (h : j + 1 < xs.length) :
    readInt16LE (xs ++ ys) j = readInt16LE xs j := by
  simp only [readInt16LE]
  rw [List.getD_append _ _ _ _ (by omega : j < xs.length),
    List.getD_append _ _ _ _ h]

/-- Claim C8: for every non-empty input buffer (of well-formed bytes) and
every threshold, `applyNoiseGate` returns a buffer of exactly the input's
byte length in which every 16-bit sample whose absolute value is below the
threshold is zeroed and every other sample equals the corresponding input
sample.  The embedding is pure: the input list is untouched, modelling
that the source writes into a freshly allocated output buffer and never
mutates its input. -/
theorem c8_applyNoiseGate_correct (buf : List Nat) (threshold : Int) (i : Nat)
    (hne : buf ≠ []) (hwf : ∀ b ∈ buf, b < 256) :
    (applyNoiseGate buf threshold).length = buf.length ∧
    (i < buf.length / 2 →
      readInt16LE (applyNoiseGate buf threshold) (2 * i)
        = if |readInt16LE buf (2 * i)| < threshold then 0
          else readInt16LE buf (2 * i)) := by
  have h0 : ¬ buf.length = 0 := by
    have := List.length_pos.2 hne
    omega
  simp only [applyNoiseGate, if_neg h0]
  constructor
  · rw [List.length_append, gateGo_length, List.length_replicate]
    omega
  · intro hi
    have hlen : (gateGo buf threshold (buf.length / 2) 0).length = 2 * (buf.length / 2) :=
      gateGo_length buf threshold _ 0
    rw [readInt16LE_append _ _ _ (by omega)]
    rw [gateGo_sample buf threshold
      (fun j => (readInt16LE_range buf hwf (2 * j)).1)
      (fun j => (readInt16LE_range buf hwf (2 * j)).2) _ 0 i hi]
    simp [gatedSample]

/-- Claim C8 witness: a 6-byte buffer with samples 10, 500 and -100 is
gated at threshold 500 to samples 0, 500 and 0, with byte length
preserved. -/
theorem c8_witness :
    (([10, 0, 244, 1, 156, 255] : List Nat) ≠ [] ∧
      ∀ b ∈ ([10, 0, 244, 1, 156, 255] : List Nat), b < 256) ∧
    (applyNoiseGate [10, 0, 244, 1, 156, 255] 500).length
        = ([10, 0, 244, 1, 156, 255] : List Nat).length ∧
    (1 < ([10, 0, 244, 1, 156, 255] : List Nat).length / 2 ∧
      readInt16LE (applyNoiseGate [10, 0, 244, 1, 156, 255] 500) (2 * 1)
        = if |readInt16LE [10, 0, 244, 1, 156, 255] (2 * 1)| < 500 then 0
          else readInt16LE [10, 0, 244, 1, 156, 255] (2 * 1)) :=
  ⟨⟨by decide, by decide⟩,
   (c8_applyNoiseGate_correct [10, 0, 244, 1, 156, 255] 500 1 (by decide) (by decide)).1,
   by decide,
   (c8_applyNoiseGate_correct [10, 0, 244, 1, 156, 255] 500 1 (by decide) (by decide)).2
     (by decide)⟩

/-! ### `SmartResponseManager` (src/util/smartResponseManager.ts)

The mutable class becomes a state record; every method that mutates the
instance returns the updated state.  `Date.now()` is the explicit `now`
argument (milliseconds), `Math.random()` the explicit sample `rand`.
Environment-derived configuration constants live in `Config`. -/

/-- The environment-configured constants of `SmartResponseManager`
(defaults in the source: 30000, 60000, 0.15, 20, 3.0, 2500, 3). -/
structure Config where
  GLOBAL_COOLDOWN_MS : Nat
  USER_COOLDOWN_MS : Nat
  RANDOM_RESPONSE_CHANCE : ℚ
  MAX_RESPONSES_PER_HOUR : Nat
  TRANSCRIPTION_MULTIPLIER : ℚ
  VOICE_SPAM_COOLDOWN_MS : Nat
  VOICE_SPAM_THRESHOLD : Nat

/-- The mutable fields of the `SmartResponseManager` class instance. -/
structure SmartResponseManager where
  lastResponseTime : String → Option Nat
  userInteractionCount : String → Option Nat
  channelCooldowns : String → Option Nat
  lastVoiceActivation : String → Option Nat
  voiceActivationCount : String → Option (Nat × Nat)
  userCooldowns : String → Option Nat
  responseCount : Nat
  hourlyResetTime : Nat

/-- The `BOT_NAMES` literal of the source (wake terms, all lowercase). -/
def BOT_NAMES : List String :=
  ["кокоджамба", "кокоджамбо", "коко", "джамба", "бот"]

/-- JavaScript `String.prototype.toLowerCase` restricted to the character
ranges that occur here: the simple Unicode lowercase mapping on Cyrillic
А..Я and Ё, and the ASCII mapping elsewhere. -/
def jsCharToLower (c : Char) : Char :=
  if 1040 ≤ c.toNat ∧ c.toNat ≤ 1071 then Char.ofNat (c.toNat + 32)
  else if c.toNat = 1025 then Char.ofNat 1105
  else c.toLower

/-- JavaScript `String.prototype.includes`: substring containment. -/
def includesSub (hay sub : List Char) : Bool :=
  (List.range (hay.length + 1)).any fun i => sub.isPrefixOf (hay.drop i)

/-- `SmartResponseManager.containsBotName`: lowercase the text and test
whether any wake term occurs as a substring. -/
def containsBotName (text : String) : Bool :=
  BOT_NAMES.any fun name => includesSub (text.data.map jsCharToLower) name.data

/-- `const botNameMentioned = transcribedText && this.containsBotName(transcribedText)`
from `shouldRespond` (an absent transcript is falsy). -/
def botNameMentioned (transcribedText : Option String) : Bool :=
  match transcribedText with
  | some t => containsBotName t
  | none => false

/-- `SmartResponseManager.isUserInCooldown`: true while an unexpired
penalty-cooldown deadline is stored for the user; an absent / falsy /
expired entry is deleted and reported as not-in-cooldown.  (The source
tests `cooldownUntil && Date.now() < cooldownUntil`, so a stored 0 counts
as absent — JS truthiness.) -/
def isUserInCooldown (s : SmartResponseManager) (userId : String) (now : Nat) :
    Bool × SmartResponseManager :=
  match s.userCooldowns userId with
  | some cooldownUntil =>
    if cooldownUntil ≠ 0 ∧ now < cooldownUntil then (true, s)
    else (false, { s with userCooldowns := upd s.userCooldowns userId none })
  | none => (false, { s with userCooldowns := upd s.userCooldowns userId none })

/-- `SmartResponseManager.setUserCooldown`. -/
def setUserCooldown (s : SmartResponseManager) (userId : String)
    (durationMs : Nat) (now : Nat) : SmartResponseManager :=
  { s with userCooldowns := upd s.userCooldowns userId (some (now + durationMs)) }

/-- The local `activationData` of `checkVoiceSpam` after its window-reset
step: the stored rolling-window entry (defaulting to a fresh
`{count: 0, resetTime: now + 60000}`), re-initialized if the stored window
has lapsed (`now > resetTime`). -/
def activationData (s : SmartResponseManager) (userId : String) (now : Nat) :
    Nat × Nat :=
  if ((s.voiceActivationCount userId).getD (0, now + 60000)).2 < now then
    (0, now + 60000)
  else (s.voiceActivationCount userId).getD (0, now + 60000)

/-- `SmartResponseManager.checkVoiceSpam`: reject while in a penalty
cooldown; reject activations spaced closer than `VOICE_SPAM_COOLDOWN_MS`
(`now - last < c` is written `now < last + c`, the same comparison over
the integers); reject and impose a 60 s penalty cooldown once the
in-window activation count has reached `VOICE_SPAM_THRESHOLD`; otherwise
record the activation (timestamp and incremented window counter) and
accept. -/
def checkVoiceSpam (cfg : Config) (s : SmartResponseManager) (userId : String)
    (now : Nat) : Bool × SmartResponseManager :=
  match isUserInCooldown s userId now with
  | (true, s1) => (false, s1)
  | (false, s1) =>
    if now < (s1.lastVoiceActivation userId).getD 0 + cfg.VOICE_SPAM_COOLDOWN_MS then
      (false, s1)
    else if cfg.VOICE_SPAM_THRESHOLD ≤ (activationData s1 userId now).1 then
      (false, setUserCooldown s1 userId 60000 now)
    else
      (true, { s1 with
        lastVoiceActivation := upd s1.lastVoiceActivation userId (some now),
        voiceActivationCount := upd s1.voiceActivationCount userId
          (some ((activationData s1 userId now).1 + 1,
                 (activationData s1 userId now).2)) })

/-- The hourly-counter rollover block duplicated at the top of both
`shouldConsiderResponse` and `shouldRespond`:
`if (now > hourlyResetTime) { responseCount = 0; hourlyResetTime = now + 3600000 }`. -/
def hourlyRollover (s : SmartResponseManager) (now : Nat) : SmartResponseManager :=
  if s.hourlyResetTime < now then
    { s with responseCount := 0, hourlyResetTime := now + 3600000 }
  else s

/-- `SmartResponseManager.shouldConsiderResponse` (Phase A, pre-capture):
voice-spam gate, hourly rollover and limit, channel cooldown, user
cooldown, then the widened Bernoulli gate
`Math.random() < RANDOM_RESPONSE_CHANCE * TRANSCRIPTION_MULTIPLIER`. -/
def shouldConsiderResponse (cfg : Config) (s : SmartResponseManager)
    (userId channelId : String) (now : Nat) (rand : ℚ) :
    Bool × SmartResponseManager :=
  match checkVoiceSpam cfg s userId now with
  | (false, s1) => (false, s1)
  | (true, s1) =>
    if cfg.MAX_RESPONSES_PER_HOUR ≤ (hourlyRollover s1 now).responseCount then
      (false, hourlyRollover s1 now)
    else if now < ((hourlyRollover s1 now).channelCooldowns channelId).getD 0
        + cfg.GLOBAL_COOLDOWN_MS then
      (false, hourlyRollover s1 now)
    else if now < ((hourlyRollover s1 now).lastResponseTime userId).getD 0
        + cfg.USER_COOLDOWN_MS then
      (false, hourlyRollover s1 now)
    else
      (decide (rand < cfg.RANDOM_RESPONSE_CHANCE * cfg.TRANSCRIPTION_MULTIPLIER),
        hourlyRollover s1 now)

/-- `SmartResponseManager.recordResponse`: stamp the speaker and channel
last-response times, bump the global hourly counter and the per-speaker
lifetime interaction counter. -/
def recordResponse (s : SmartResponseManager) (userId channelId : String)
    (now : Nat) : SmartResponseManager :=
  { s with
    lastResponseTime := upd s.lastResponseTime userId (some now),
    channelCooldowns := upd s.channelCooldowns channelId (some now),
    responseCount := s.responseCount + 1,
    userInteractionCount := upd s.userInteractionCount userId
      (some ((s.userInteractionCount userId).getD 0 + 1)) }

/-- `SmartResponseManager.shouldRespond` (Phase B, post-transcription):
hourly rollover and limit; a wake-term match in the transcript
force-accepts (recording the response) before any cooldown check; then
channel cooldown, user cooldown, and the base Bernoulli gate
`Math.random() < RANDOM_RESPONSE_CHANCE`, recording on acceptance. -/
def shouldRespond (cfg : Config) (s : SmartResponseManager)
    (userId channelId : String) (now : Nat) (transcribedText : Option String)
    (rand : ℚ) : Bool × SmartResponseManager :=
  if cfg.MAX_RESPONSES_PER_HOUR ≤ (hourlyRollover s now).responseCount then
    (false, hourlyRollover s now)
  else if botNameMentioned transcribedText then
    (true, recordResponse (hourlyRollover s now) userId channelId now)
  else if now < ((hourlyRollover s now).channelCooldowns channelId).getD 0
      + cfg.GLOBAL_COOLDOWN_MS then
    (false, hourlyRollover s now)
  else if now < ((hourlyRollover s now).lastResponseTime userId).getD 0
      + cfg.USER_COOLDOWN_MS then
    (false, hourlyRollover s now)
  else if rand < cfg.RANDOM_RESPONSE_CHANCE then
    (true, recordResponse (hourlyRollover s now) userId channelId now)
  else (false, hourlyRollover s now)

/-- `SmartResponseManager.resetCooldowns` (the administrative
`resetThrottle`): clear the last-response, channel-cooldown and
interaction-count maps and restart the hourly window; the penalty
cooldowns and voice-activation tracking maps are not touched. -/
def resetCooldowns (s : SmartResponseManager) (now : Nat) : SmartResponseManager :=
  { s with
    lastResponseTime := fun _ => none,
    channelCooldowns := fun _ => none,
    userInteractionCount := fun _ => none,
    responseCount := 0,
    hourlyResetTime := now + 3600000 }

example : containsBotName "коко" = true := by decide
example : containsBotName "Привет, КОКОДЖАМБА!" = true := by decide
example : containsBotName "hello world" = false := by decide

/-! ### Frame and characterization lemmas for `SmartResponseManager` -/

theorem isUserInCooldown_frame (s : SmartResponseManager) (u : String) (now : Nat) :
    (isUserInCooldown s u now).2.lastResponseTime = s.lastResponseTime ∧
    (isUserInCooldown s u now).2.userInteractionCount = s.userInteractionCount ∧
    (isUserInCooldown s u now).2.channelCooldowns = s.channelCooldowns ∧
    (isUserInCooldown s u now).2.lastVoiceActivation = s.lastVoiceActivation ∧
    (isUserInCooldown s u now).2.voiceActivationCount = s.voiceActivationCount ∧
    (isUserInCooldown s u now).2.responseCount = s.responseCount ∧
    (isUserInCooldown s u now).2.hourlyResetTime = s.hourlyResetTime := by
  unfold isUserInCooldown
  rcases h : s.userCooldowns u with _ | cu
  · simp only [h]
    simp
  · simp only [h]
    split <;> simp

theorem checkVoiceSpam_frame (cfg : Config) (s : SmartResponseManager)
    (u : String) (now : Nat) :
    (checkVoiceSpam cfg s u now).2.lastResponseTime = s.lastResponseTime ∧
    (checkVoiceSpam cfg s u now).2.userInteractionCount = s.userInteractionCount ∧
    (checkVoiceSpam cfg s u now).2.channelCooldowns = s.channelCooldowns ∧
    (checkVoiceSpam cfg s u now).2.responseCount = s.responseCount ∧
    (checkVoiceSpam cfg s u now).2.hourlyResetTime = s.hourlyResetTime := by
  obtain ⟨f1, f2, f3, f4, f5, f6, f7⟩ := isUserInCooldown_frame s u now
  rcases h : isUserInCooldown s u now with ⟨b, s1⟩
  rw [h] at f1 f2 f3 f4 f5 f6 f7
  unfold checkVoiceSpam
  rw [h]
  cases b
  · dsimp only
    split_ifs <;> simp_all [setUserCooldown]
  · dsimp only
    simp_all

theorem hourlyRollover_frame (s : SmartResponseManager) (now : Nat) :
    (hourlyRollover s now).lastResponseTime = s.lastResponseTime ∧
    (hourlyRollover s now).userInteractionCount = s.userInteractionCount ∧
    (hourlyRollover s now).channelCooldowns = s.channelCooldowns ∧
    (hourlyRollover s now).lastVoiceActivation = s.lastVoiceActivation ∧
    (hourlyRollover s now).voiceActivationCount = s.voiceActivationCount ∧
    (hourlyRollover s now).userCooldowns = s.userCooldowns := by
  unfold hourlyRollover
  split <;> simp

/-- The spam-tracking fields of the Phase A result state are exactly those
produced by `checkVoiceSpam`; the later cooldown / limit checks only
consult (and possibly roll over) the response-counting fields. -/
theorem shouldConsider_spamState (cfg : Config) (s : SmartResponseManager)
    (u ch : String) (now : Nat) (rand : ℚ) :
    (shouldConsiderResponse cfg s u ch now rand).2.userCooldowns
      = (checkVoiceSpam cfg s u now).2.userCooldowns ∧
    (shouldConsiderResponse cfg s u ch now rand).2.lastVoiceActivation
      = (checkVoiceSpam cfg s u now).2.lastVoiceActivation ∧
    (shouldConsiderResponse cfg s u ch now rand).2.voiceActivationCount
      = (checkVoiceSpam cfg s u now).2.voiceActivationCount := by
  rcases h : checkVoiceSpam cfg s u now with ⟨b, s1⟩
  obtain ⟨r1, r2, r3, r4, r5, r6⟩ := hourlyRollover_frame s1 now
  unfold shouldConsiderResponse
  rw [h]
  cases b
  · dsimp only
    simp
  · dsimp only
    split_ifs <;> simp_all

/-- A Phase A call whose spam check rejects returns `false` together with
the spam-check state. -/
theorem shouldConsider_of_spamFalse (cfg : Config) (s : SmartResponseManager)
    (u ch : String) (now : Nat) (rand : ℚ)
    (h : (checkVoiceSpam cfg s u now).1 = false) :
    shouldConsiderResponse cfg s u ch now rand
      = (false, (checkVoiceSpam cfg s u now).2) := by
  unfold shouldConsiderResponse
  rcases hc : checkVoiceSpam cfg s u now with ⟨b, s1⟩
  rw [hc] at h
  simp at h
  subst h
  rfl

theorem isUserInCooldown_true (s : SmartResponseManager) (u : String)
    (now cu : Nat) (h : s.userCooldowns u = some cu) (h0 : cu ≠ 0)
    (hlt : now < cu) : isUserInCooldown s u now = (true, s) := by
  simp only [isUserInCooldown, h]
  rw [if_pos ⟨h0, hlt⟩]

theorem isUserInCooldown_none (s : SmartResponseManager) (u : String)
    (now : Nat) (h : s.userCooldowns u = none) :
    isUserInCooldown s u now
      = (false, { s with userCooldowns := upd s.userCooldowns u none }) := by
  simp only [isUserInCooldown, h]

/-- `checkVoiceSpam` while the user is in an unexpired penalty cooldown:
reject, state unchanged. -/
theorem checkVoiceSpam_cooldown (cfg : Config) (s : SmartResponseManager)
    (u : String) (now cu : Nat) (h : s.userCooldowns u = some cu)
    (h0 : cu ≠ 0) (hlt : now < cu) :
    checkVoiceSpam cfg s u now = (false, s) := by
  unfold checkVoiceSpam
  rw [isUserInCooldown_true s u now cu h h0 hlt]

theorem activationData_eq (s : SmartResponseManager) (u : String)
    (now k r : Nat)
    (hvc : (s.voiceActivationCount u).getD (0, now + 60000) = (k, r))
    (hwin : now ≤ r) : activationData s u now = (k, r) := by
  simp only [activationData, hvc]
  rw [if_neg (by omega)]

/-- `checkVoiceSpam` on a spaced activation inside the current window with
the counter still below threshold: accept, recording the activation. -/
theorem checkVoiceSpam_pass (cfg : Config) (s : SmartResponseManager)
    (u : String) (now k r : Nat)
    (hcd : s.userCooldowns u = none)
    (hsp : (s.lastVoiceActivation u).getD 0 + cfg.VOICE_SPAM_COOLDOWN_MS ≤ now)
    (hvc : (s.voiceActivationCount u).getD (0, now + 60000) = (k, r))
    (hwin : now ≤ r) (hk : k < cfg.VOICE_SPAM_THRESHOLD) :
    checkVoiceSpam cfg s u now
      = (true, { s with
          userCooldowns := upd s.userCooldowns u none,
          lastVoiceActivation := upd s.lastVoiceActivation u (some now),
          voiceActivationCount := upd s.voiceActivationCount u (some (k + 1, r)) }) := by
  unfold checkVoiceSpam
  rw [isUserInCooldown_none s u now hcd]
  dsimp only
  rw [activationData_eq { s with userCooldowns := upd s.userCooldowns u none }
    u now k r hvc hwin]
  dsimp only
  rw [if_neg (by omega), if_neg (by omega)]

/-- `checkVoiceSpam` on a spaced activation inside the current window with
the counter at or above threshold: reject and impose the 60 s penalty
cooldown. -/
theorem checkVoiceSpam_threshold (cfg : Config) (s : SmartResponseManager)
    (u : String) (now k r : Nat)
    (hcd : s.userCooldowns u = none)
    (hsp : (s.lastVoiceActivation u).getD 0 + cfg.VOICE_SPAM_COOLDOWN_MS ≤ now)
    (hvc : (s.voiceActivationCount u).getD (0, now + 60000) = (k, r))
    (hwin : now ≤ r) (hk : cfg.VOICE_SPAM_THRESHOLD ≤ k) :
    checkVoiceSpam cfg s u now
      = (false, { s with
          userCooldowns := upd (upd s.userCooldowns u none) u (some (now + 60000)) }) := by
  unfold checkVoiceSpam
  rw [isUserInCooldown_none s u now hcd]
  dsimp only
  rw [activationData_eq { s with userCooldowns := upd s.userCooldowns u none }
    u now k r hvc hwin]
  dsimp only
  rw [if_neg (by omega), if_pos (by omega)]
  rfl

theorem hourlyRollover_noFire (s : SmartResponseManager) (now : Nat)
    (h : ¬ s.hourlyResetTime < now) : hourlyRollover s now = s := by
  unfold hourlyRollover
  rw [if_neg h]

theorem hourlyRollover_fire (s : SmartResponseManager) (now : Nat)
    (h : s.hourlyResetTime < now) :
    hourlyRollover s now
      = { s with responseCount := 0, hourlyResetTime := now + 3600000 } := by
  unfold hourlyRollover
  rw [if_pos h]

theorem hourlyRollover_count_le (s : SmartResponseManager) (now : Nat) :
    (hourlyRollover s now).responseCount ≤ s.responseCount := by
  unfold hourlyRollover
  split <;> simp

/-! ### Claim theorems for the throttling engine -/

/-- Claim C2: in Phase B, when the hourly limit has not been reached
(after the automatic rollover), a transcript containing a configured wake
term is accepted unconditionally — no per-speaker or per-channel cooldown
hypothesis is needed, so acceptance holds in particular when both
cooldowns are still running — and the response is recorded: the speaker
and channel last-response timestamps are set to `now` and the global
hourly counter is incremented. -/
theorem c2_wake_term_bypasses_cooldowns (cfg : Config)
    (s : SmartResponseManager) (u ch : String) (now : Nat) (t : String)
    (rand : ℚ)
    (hlimit : (hourlyRollover s now).responseCount < cfg.MAX_RESPONSES_PER_HOUR)
    (hname : containsBotName t = true) :
    (shouldRespond cfg s u ch now (some t) rand).1 = true ∧
    (shouldRespond cfg s u ch now (some t) rand).2.lastResponseTime u = some now ∧
    (shouldRespond cfg s u ch now (some t) rand).2.channelCooldowns ch = some now ∧
    (shouldRespond cfg s u ch now (some t) rand).2.responseCount
      = (hourlyRollover s now).responseCount + 1 := by
  have hb : botNameMentioned (some t) = true := by
    simp [botNameMentioned, hname]
  unfold shouldRespond
  rw [if_neg (by omega), if_pos hb]
  refine ⟨rfl, ?_, ?_, rfl⟩ <;> simp [recordResponse, upd]

/-- Shared concrete throttling configuration for the witnesses (the
source's documented defaults). -/
def cfg0 : Config where
  GLOBAL_COOLDOWN_MS := 30000
  USER_COOLDOWN_MS := 60000
  RANDOM_RESPONSE_CHANCE := 15 / 100
  MAX_RESPONSES_PER_HOUR := 20
  TRANSCRIPTION_MULTIPLIER := 3
  VOICE_SPAM_COOLDOWN_MS := 2500
  VOICE_SPAM_THRESHOLD := 3

/-- The state of a freshly constructed `SmartResponseManager` (all maps
empty, counter zero, reset deadline one hour after construction at
time 0). -/
def emptySRM : SmartResponseManager where
  lastResponseTime := fun _ => none
  userInteractionCount := fun _ => none
  channelCooldowns := fun _ => none
  lastVoiceActivation := fun _ => none
  voiceActivationCount := fun _ => none
  userCooldowns := fun _ => none
  responseCount := 0
  hourlyResetTime := 3600000

/-- A state in which speaker "u" and channel "ch" both responded at time
999, i.e. 1 ms before the witness call at time 1000, so both cooldowns are
still running. -/
def s2w : SmartResponseManager :=
  { emptySRM with
    lastResponseTime := upd (fun _ => none) "u" (some 999),
    channelCooldowns := upd (fun _ => none) "ch" (some 999) }

/-- Claim C2 witness: at time 1000, with both cooldowns set 1 ms earlier
and far from elapsed (the third conjunct shows the user cooldown is
active), the wake-term transcript "коко" is accepted and recorded. -/
theorem c2_witness :
    ((hourlyRollover s2w 1000).responseCount < cfg0.MAX_RESPONSES_PER_HOUR ∧
      containsBotName "коко" = true ∧
      1000 < ((hourlyRollover s2w 1000).lastResponseTime "u").getD 0
        + cfg0.USER_COOLDOWN_MS) ∧
    (shouldRespond cfg0 s2w "u" "ch" 1000 (some "коко") 0).1 = true ∧
    (shouldRespond cfg0 s2w "u" "ch" 1000 (some "коко") 0).2.lastResponseTime "u"
      = some 1000 ∧
    (shouldRespond cfg0 s2w "u" "ch" 1000 (some "коко") 0).2.channelCooldowns "ch"
      = some 1000 ∧
    (shouldRespond cfg0 s2w "u" "ch" 1000 (some "коко") 0).2.responseCount
      = (hourlyRollover s2w 1000).responseCount + 1 :=
  ⟨⟨by decide, by decide, by decide⟩,
   c2_wake_term_bypasses_cooldowns cfg0 s2w "u" "ch" 1000 "коко" 0
     (by decide) (by decide)⟩

/-- Claim C3: once the hourly counter has reached the configured maximum,
every Phase A and Phase B call (wake term included) rejects while `now`
has not passed the reset deadline; at the first call past the deadline the
counter and deadline roll over and one more (wake-term) response is
admitted, leaving the counter at exactly 1 in the new window and the
deadline one hour after the boundary call. -/
theorem c3_hourly_limit_gates_both_phases (cfg : Config)
    (s : SmartResponseManager) (u ch u2 ch2 : String) (now now2 : Nat)
    (t t2 : String) (rand rand2 : ℚ)
    (hmax : cfg.MAX_RESPONSES_PER_HOUR ≤ s.responseCount)
    (hnow : now ≤ s.hourlyResetTime)
    (hnow2 : s.hourlyResetTime < now2)
    (hname : containsBotName t2 = true)
    (hpos : 0 < cfg.MAX_RESPONSES_PER_HOUR) :
    (shouldConsiderResponse cfg s u ch now rand).1 = false ∧
    (shouldRespond cfg s u ch now (some t) rand).1 = false ∧
    (shouldRespond cfg s u2 ch2 now2 (some t2) rand2).1 = true ∧
    (shouldRespond cfg s u2 ch2 now2 (some t2) rand2).2.responseCount = 1 ∧
    (shouldRespond cfg s u2 ch2 now2 (some t2) rand2).2.hourlyResetTime
      = now2 + 3600000 := by
  refine ⟨?_, ?_, ?_⟩
  · obtain ⟨g1, g2, g3, g4, g5⟩ := checkVoiceSpam_frame cfg s u now
    rcases h : checkVoiceSpam cfg s u now with ⟨b, s1⟩
    rw [h] at g1 g2 g3 g4 g5
    unfold shouldConsiderResponse
    rw [h]
    cases b
    · rfl
    · dsimp only
      dsimp only at g4 g5
      rw [hourlyRollover_noFire s1 now (by omega)]
      rw [if_pos (by omega)]
  · unfold shouldRespond
    rw [hourlyRollover_noFire s now (by omega)]
    rw [if_pos (by omega)]
  · have hb : botNameMentioned (some t2) = true := by
      simp [botNameMentioned, hname]
    unfold shouldRespond
    rw [hourlyRollover_fire s now2 hnow2]
    rw [if_neg (by dsimp only; omega), if_pos hb]
    refine ⟨rfl, ?_, rfl⟩
    simp [recordResponse]

/-- A state with the hourly limit of `cfg0` (20) exhausted and the reset
deadline at time 3600000. -/
def s3w : SmartResponseManager := { emptySRM with responseCount := 20 }

/-- Claim C3 witness: with the counter at the maximum, a Phase A call and
a wake-term Phase B call at the deadline both reject; a wake-term Phase B
call 1 ms past the deadline is admitted, rolling the counter to 1 and the
deadline forward one hour. -/
theorem c3_witness :
    (cfg0.MAX_RESPONSES_PER_HOUR ≤ s3w.responseCount ∧
      3600000 ≤ s3w.hourlyResetTime ∧ s3w.hourlyResetTime < 3600001 ∧
      containsBotName "коко" = true ∧ 0 < cfg0.MAX_RESPONSES_PER_HOUR) ∧
    (shouldConsiderResponse cfg0 s3w "u" "ch" 3600000 0).1 = false ∧
    (shouldRespond cfg0 s3w "u" "ch" 3600000 (some "коко") 0).1 = false ∧
    (shouldRespond cfg0 s3w "u2" "ch2" 3600001 (some "коко") 0).1 = true ∧
    (shouldRespond cfg0 s3w "u2" "ch2" 3600001 (some "коко") 0).2.responseCount = 1 ∧
    (shouldRespond cfg0 s3w "u2" "ch2" 3600001 (some "коко") 0).2.hourlyResetTime
      = 3600001 + 3600000 :=
  ⟨⟨by decide, by decide, by decide, by decide, by decide⟩,
   c3_hourly_limit_gates_both_phases cfg0 s3w "u" "ch" "u2" "ch2" 3600000 3600001
     "коко" "коко" 0 0 (by decide) (by decide) (by decide) (by decide) (by decide)⟩

/-- Claim C9: the Phase A pre-check never records a response: whatever it
returns, the per-speaker last-response map, the per-channel last-response
map and the per-speaker interaction counters are left untouched, and the
global hourly counter is never incremented (it is either unchanged or
reset to 0 by the automatic hourly rollover; the only other mutations are
the spam-tracking state of `checkVoiceSpam`). -/
theorem c9_preCheck_never_records (cfg : Config) (s : SmartResponseManager)
    (u ch : String) (now : Nat) (rand : ℚ) :
    (shouldConsiderResponse cfg s u ch now rand).2.lastResponseTime
      = s.lastResponseTime ∧
    (shouldConsiderResponse cfg s u ch now rand).2.channelCooldowns
      = s.channelCooldowns ∧
    (shouldConsiderResponse cfg s u ch now rand).2.userInteractionCount
      = s.userInteractionCount ∧
    (shouldConsiderResponse cfg s u ch now rand).2.responseCount
      ≤ s.responseCount := by
  obtain ⟨g1, g2, g3, g4, g5⟩ := checkVoiceSpam_frame cfg s u now
  rcases h : checkVoiceSpam cfg s u now with ⟨b, s1⟩
  rw [h] at g1 g2 g3 g4 g5
  obtain ⟨r1, r2, r3, r4, r5, r6⟩ := hourlyRollover_frame s1 now
  have hrc := hourlyRollover_count_le s1 now
  unfold shouldConsiderResponse
  rw [h]
  cases b
  · dsimp only
    dsimp only at g1 g2 g3 g4
    exact ⟨g1, g3, g2, le_of_eq g4⟩
  · dsimp only
    dsimp only at g1 g2 g3 g4
    split_ifs <;>
      exact ⟨r1.trans g1, r3.trans g3, r2.trans g2, le_trans hrc (le_of_eq g4)⟩

/-- Claim C10: the administrative `resetCooldowns` clears the per-speaker
last-response map, the per-channel cooldown map, the interaction counters
and the hourly counter/deadline, but leaves the penalty cooldowns, last
voice-activation timestamps and rolling activation counters untouched, so
a speaker under an active penalty cooldown is still rejected by the Phase
A pre-check immediately after the reset. -/
theorem c10_resetCooldowns_frame (cfg : Config) (s : SmartResponseManager)
    (now : Nat) (u ch : String) (t : Nat) (rand : ℚ) (cu : Nat)
    (hcu : s.userCooldowns u = some cu) (hcu0 : cu ≠ 0) (ht : t < cu) :
    (resetCooldowns s now).userCooldowns = s.userCooldowns ∧
    (resetCooldowns s now).lastVoiceActivation = s.lastVoiceActivation ∧
    (resetCooldowns s now).voiceActivationCount = s.voiceActivationCount ∧
    (resetCooldowns s now).lastResponseTime = (fun _ => none) ∧
    (resetCooldowns s now).channelCooldowns = (fun _ => none) ∧
    (resetCooldowns s now).userInteractionCount = (fun _ => none) ∧
    (resetCooldowns s now).responseCount = 0 ∧
    (resetCooldowns s now).hourlyResetTime = now + 3600000 ∧
    (shouldConsiderResponse cfg (resetCooldowns s now) u ch t rand).1 = false := by
  refine ⟨rfl, rfl, rfl, rfl, rfl, rfl, rfl, rfl, ?_⟩
  have hc : checkVoiceSpam cfg (resetCooldowns s now) u t
      = (false, resetCooldowns s now) :=
    checkVoiceSpam_cooldown cfg _ u t cu hcu hcu0 ht
  rw [shouldConsider_of_spamFalse cfg _ u ch t rand (by rw [hc])]

/-- A state in which speaker "u" is under a penalty cooldown until time
100000, with some spam-tracking history. -/
def s10w : SmartResponseManager :=
  { emptySRM with
    lastResponseTime := upd (fun _ => none) "u" (some 40000),
    userCooldowns := upd (fun _ => none) "u" (some 100000),
    lastVoiceActivation := upd (fun _ => none) "u" (some 40001),
    voiceActivationCount := upd (fun _ => none) "u" (some (2, 100001)) }

/-- Claim C10 witness: resetting at time 50000 clears the response maps
and counters but keeps the penalty cooldown (until 100000), the last
activation timestamp and the rolling counter; the pre-check at time 60000
still rejects the penalized speaker. -/
theorem c10_witness :
    (s10w.userCooldowns "u" = some 100000 ∧ (100000 : Nat) ≠ 0 ∧
      (60000 : Nat) < 100000) ∧
    (resetCooldowns s10w 50000).userCooldowns = s10w.userCooldowns ∧
    (resetCooldowns s10w 50000).lastVoiceActivation = s10w.lastVoiceActivation ∧
    (resetCooldowns s10w 50000).voiceActivationCount = s10w.voiceActivationCount ∧
    (resetCooldowns s10w 50000).lastResponseTime = (fun _ => none) ∧
    (resetCooldowns s10w 50000).channelCooldowns = (fun _ => none) ∧
    (resetCooldowns s10w 50000).userInteractionCount = (fun _ => none) ∧
    (resetCooldowns s10w 50000).responseCount = 0 ∧
    (resetCooldowns s10w 50000).hourlyResetTime = 50000 + 3600000 ∧
    (shouldConsiderResponse cfg0 (resetCooldowns s10w 50000) "u" "ch" 60000 0).1
      = false :=
  ⟨⟨by decide, by decide, by decide⟩,
   c10_resetCooldowns_frame cfg0 s10w 50000 "u" "ch" 60000 0 100000
     (by decide) (by decide) (by decide)⟩

/-- Claim C4: starting from a state with no spam-tracking history for the
speaker, three voice activations at `t1 < t2 < t3` that satisfy the
minimum-spacing check and fall inside the rolling 60 s window opened at
`t1` fill the window counter to the threshold (3); a fourth pre-capture
check at `t4`, still inside the window and even though its spacing from
`t3` would pass, rejects and places the speaker into a 60,000 ms penalty
cooldown (`until t4 + 60000`), and every subsequent pre-capture check
before that deadline rejects as well. -/
theorem c4_voice_spam_threshold_penalty (cfg : Config)
    (s0 : SmartResponseManager) (u ch : String) (t1 t2 t3 t4 : Nat)
    (ra rb rc rd : ℚ)
    (hth : cfg.VOICE_SPAM_THRESHOLD = 3)
    (hcd : s0.userCooldowns u = none)
    (hla : s0.lastVoiceActivation u = none)
    (hvc : s0.voiceActivationCount u = none)
    (hc1 : cfg.VOICE_SPAM_COOLDOWN_MS ≤ t1)
    (h12 : t1 + cfg.VOICE_SPAM_COOLDOWN_MS ≤ t2)
    (h23 : t2 + cfg.VOICE_SPAM_COOLDOWN_MS ≤ t3)
    (h34 : t3 + cfg.VOICE_SPAM_COOLDOWN_MS ≤ t4)
    (hw4 : t4 ≤ t1 + 60000) :
    (shouldConsiderResponse cfg
      (shouldConsiderResponse cfg
        (shouldConsiderResponse cfg
          (shouldConsiderResponse cfg s0 u ch t1 ra).2 u ch t2 rb).2
        u ch t3 rc).2 u ch t4 rd).1 = false ∧
    (shouldConsiderResponse cfg
      (shouldConsiderResponse cfg
        (shouldConsiderResponse cfg
          (shouldConsiderResponse cfg s0 u ch t1 ra).2 u ch t2 rb).2
        u ch t3 rc).2 u ch t4 rd).2.userCooldowns u = some (t4 + 60000) ∧
    ∀ t5 r5, t5 < t4 + 60000 →
      (shouldConsiderResponse cfg
        (shouldConsiderResponse cfg
          (shouldConsiderResponse cfg
            (shouldConsiderResponse cfg
              (shouldConsiderResponse cfg s0 u ch t1 ra).2 u ch t2 rb).2
            u ch t3 rc).2 u ch t4 rd).2 u ch t5 r5).1 = false := by
  have hcv1 := checkVoiceSpam_pass cfg s0 u t1 0 (t1 + 60000) hcd
    (by simp only [hla, Option.getD_none]; omega)
    (by simp only [hvc, Option.getD_none])
    (by omega) (by omega)
  have e1cd : (shouldConsiderResponse cfg s0 u ch t1 ra).2.userCooldowns u
      = none := by
    rw [(shouldConsider_spamState cfg s0 u ch t1 ra).1, hcv1]
    simp [upd]
  have e1la : (shouldConsiderResponse cfg s0 u ch t1 ra).2.lastVoiceActivation u
      = some t1 := by
    rw [(shouldConsider_spamState cfg s0 u ch t1 ra).2.1, hcv1]
    simp [upd]
  have e1vc : (shouldConsiderResponse cfg s0 u ch t1 ra).2.voiceActivationCount u
      = some (1, t1 + 60000) := by
    rw [(shouldConsider_spamState cfg s0 u ch t1 ra).2.2, hcv1]
    simp [upd]
  have hcv2 := checkVoiceSpam_pass cfg _ u t2 1 (t1 + 60000) e1cd
    (by simp only [e1la, Option.getD_some]; omega)
    (by simp only [e1vc, Option.getD_some])
    (by omega) (by omega)
  have e2cd : (shouldConsiderResponse cfg
      (shouldConsiderResponse cfg s0 u ch t1 ra).2 u ch t2 rb).2.userCooldowns u
      = none := by
    rw [(shouldConsider_spamState cfg _ u ch t2 rb).1, hcv2]
    simp [upd]
  have e2la : (shouldConsiderResponse cfg
      (shouldConsiderResponse cfg s0 u ch t1 ra).2 u ch t2 rb).2.lastVoiceActivation u
      = some t2 := by
    rw [(shouldConsider_spamState cfg _ u ch t2 rb).2.1, hcv2]
    simp [upd]
  have e2vc : (shouldConsiderResponse cfg
      (shouldConsiderResponse cfg s0 u ch t1 ra).2 u ch t2 rb).2.voiceActivationCount u
      = some (2, t1 + 60000) := by
    rw [(shouldConsider_spamState cfg _ u ch t2 rb).2.2, hcv2]
    simp [upd]
  have hcv3 := checkVoiceSpam_pass cfg _ u t3 2 (t1 + 60000) e2cd
    (by simp only [e2la, Option.getD_some]; omega)
    (by simp only [e2vc, Option.getD_some])
    (by omega) (by omega)
  have e3cd : (shouldConsiderResponse cfg
      (shouldConsiderResponse cfg
        (shouldConsiderResponse cfg s0 u ch t1 ra).2 u ch t2 rb).2
      u ch t3 rc).2.userCooldowns u = none := by
    rw [(shouldConsider_spamState cfg _ u ch t3 rc).1, hcv3]
    simp [upd]
  have e3la : (shouldConsiderResponse cfg
      (shouldConsiderResponse cfg
        (shouldConsiderResponse cfg s0 u ch t1 ra).2 u ch t2 rb).2
      u ch t3 rc).2.lastVoiceActivation u = some t3 := by
    rw [(shouldConsider_spamState cfg _ u ch t3 rc).2.1, hcv3]
    simp [upd]
  have e3vc : (shouldConsiderResponse cfg
      (shouldConsiderResponse cfg
        (shouldConsiderResponse cfg s0 u ch t1 ra).2 u ch t2 rb).2
      u ch t3 rc).2.voiceActivationCount u = some (3, t1 + 60000) := by
    rw [(shouldConsider_spamState cfg _ u ch t3 rc).2.2, hcv3]
    simp [upd]
  have hcv4 := checkVoiceSpam_threshold cfg _ u t4 3 (t1 + 60000) e3cd
    (by simp only [e3la, Option.getD_some]; omega)
    (by simp only [e3vc, Option.getD_some])
    (by omega) (by omega)
  have hmain := shouldConsider_of_spamFalse cfg _ u ch t4 rd (by rw [hcv4])
  have hpen : (shouldConsiderResponse cfg
      (shouldConsiderResponse cfg
        (shouldConsiderResponse cfg
          (shouldConsiderResponse cfg s0 u ch t1 ra).2 u ch t2 rb).2
        u ch t3 rc).2 u ch t4 rd).2.userCooldowns u = some (t4 + 60000) := by
    rw [hmain, hcv4]
    simp [upd]
  refine ⟨by rw [hmain], hpen, ?_⟩
  intro t5 r5 ht5
  have hc5 := checkVoiceSpam_cooldown cfg _ u t5 (t4 + 60000) hpen
    (by omega) ht5
  rw [shouldConsider_of_spamFalse cfg _ u ch t5 r5 (by rw [hc5])]

/-- Claim C4 witness: with the default configuration (threshold 3, minimum
spacing 2500 ms), activations at 2500, 5000 and 7500 ms fill the window;
the check at 10000 ms (spacing satisfied, still inside the window opened
at 2500) rejects and sets the penalty cooldown to 70000, and every further
check before 70000 rejects. -/
theorem c4_witness :
    (cfg0.VOICE_SPAM_THRESHOLD = 3 ∧ emptySRM.userCooldowns "u" = none ∧
      emptySRM.lastVoiceActivation "u" = none ∧
      emptySRM.voiceActivationCount "u" = none ∧
      cfg0.VOICE_SPAM_COOLDOWN_MS ≤ 2500 ∧ (10000 : Nat) ≤ 2500 + 60000) ∧
    (shouldConsiderResponse cfg0
      (shouldConsiderResponse cfg0
        (shouldConsiderResponse cfg0
          (shouldConsiderResponse cfg0 emptySRM "u" "c" 2500 0).2 "u" "c" 5000 0).2
        "u" "c" 7500 0).2 "u" "c" 10000 0).1 = false ∧
    (shouldConsiderResponse cfg0
      (shouldConsiderResponse cfg0
        (shouldConsiderResponse cfg0
          (shouldConsiderResponse cfg0 emptySRM "u" "c" 2500 0).2 "u" "c" 5000 0).2
        "u" "c" 7500 0).2 "u" "c" 10000 0).2.userCooldowns "u" = some (10000 + 60000) ∧
    ∀ t5 r5, t5 < 10000 + 60000 →
      (shouldConsiderResponse cfg0
        (shouldConsiderResponse cfg0
          (shouldConsiderResponse cfg0
            (shouldConsiderResponse cfg0
              (shouldConsiderResponse cfg0 emptySRM "u" "c" 2500 0).2 "u" "c" 5000 0).2
            "u" "c" 7500 0).2 "u" "c" 10000 0).2 "u" "c" t5 r5).1 = false :=
  ⟨⟨by decide, rfl, rfl, rfl, by decide, by decide⟩,
   c4_voice_spam_threshold_penalty cfg0 emptySRM "u" "c" 2500 5000 7500 10000
     0 0 0 0 (by decide) rfl rfl rfl (by decide) (by decide) (by decide)
     (by decide) (by decide)⟩

/-! ### `VoiceActivityDetector` (the `SpeechBoundaryTracker`)

`onVoiceEnd` consults the shared `smartResponseManager` singleton for the
penalty cooldown, so it takes (and returns) that state too.  Source
constants: `MIN_SPEECH_DURATION = 1500`, `MAX_SPEECH_DURATION = 10000`. -/

/-- The priority bucket returned by `onVoiceEnd`. -/
inductive Priority where
  | high
  | normal
  | skip
deriving DecidableEq

/-- The mutable state of the `VoiceActivityDetector` class. -/
structure VoiceActivityDetector where
  voiceStartTimes : String → Option Nat

/-- `VoiceActivityDetector.onVoiceEnd`: `normal` with no state change when
no start timestamp is recorded (`if (!startTime)`, so a recorded 0 counts
as absent — JS truthiness); otherwise compute the elapsed duration, drop
the start entry, and classify: `skip` while the speaker is in a penalty
cooldown, `skip` below 500 ms, `high` within [1500, 10000] ms, `normal`
otherwise.  `Date.now() - startTime` is `now - startTime` (clamped natural
subtraction agrees with the source on the branch taken, since a negative
JS duration is both `< 500` and outside `[1500, 10000]`, like 0). -/
def onVoiceEnd (vad : VoiceActivityDetector) (srm : SmartResponseManager)
    (u : String) (now : Nat) :
    Priority × VoiceActivityDetector × SmartResponseManager :=
  match vad.voiceStartTimes u with
  | none => (Priority.normal, vad, srm)
  | some startTime =>
    if startTime = 0 then (Priority.normal, vad, srm)
    else
      match isUserInCooldown srm u now with
      | (true, srm1) =>
        (Priority.skip, ⟨upd vad.voiceStartTimes u none⟩, srm1)
      | (false, srm1) =>
        if now - startTime < 500 then
          (Priority.skip, ⟨upd vad.voiceStartTimes u none⟩, srm1)
        else if 1500 ≤ now - startTime ∧ now - startTime ≤ 10000 then
          (Priority.high, ⟨upd vad.voiceStartTimes u none⟩, srm1)
        else (Priority.normal, ⟨upd vad.voiceStartTimes u none⟩, srm1)

/-- Claim C5: for a speaker with a recorded (nonzero) speaking-start,
`onVoiceEnd` returns `skip` regardless of duration while the speaker is
under an active penalty cooldown; otherwise it classifies the elapsed
duration `d = now - st` as `skip` when `d < 500`, `high` when
`1500 ≤ d ≤ 10000`, and `normal` otherwise. -/
theorem c5_onVoiceEnd_classification (vad : VoiceActivityDetector)
    (srm : SmartResponseManager) (u : String) (st now : Nat)
    (hst : vad.voiceStartTimes u = some st) (hst0 : st ≠ 0) :
    ((isUserInCooldown srm u now).1 = true →
      (onVoiceEnd vad srm u now).1 = Priority.skip) ∧
    ((isUserInCooldown srm u now).1 = false →
      (onVoiceEnd vad srm u now).1 =
        if now - st < 500 then Priority.skip
        else if 1500 ≤ now - st ∧ now - st ≤ 10000 then Priority.high
        else Priority.normal) := by
  unfold onVoiceEnd
  rw [hst]
  dsimp only
  rw [if_neg hst0]
  rcases hic : isUserInCooldown srm u now with ⟨b, srm1⟩
  cases b
  · dsimp only
    refine ⟨fun habs => by simp at habs, fun _ => ?_⟩
    split_ifs <;> rfl
  · dsimp only
    exact ⟨fun _ => rfl, fun habs => by simp at habs⟩

/-- Start recorded at 8200 ms (duration 1800 at time 10000). -/
def vad5a : VoiceActivityDetector := ⟨upd (fun _ => none) "u" (some 8200)⟩

/-- Start recorded at 9700 ms (duration 300 at time 10000). -/
def vad5b : VoiceActivityDetector := ⟨upd (fun _ => none) "u" (some 9700)⟩

/-- Start recorded at 10000 ms (duration 20000 at time 30000). -/
def vad5c : VoiceActivityDetector := ⟨upd (fun _ => none) "u" (some 10000)⟩

/-- Speaker "u" under a penalty cooldown until 20000 ms. -/
def srm5d : SmartResponseManager :=
  { emptySRM with userCooldowns := upd (fun _ => none) "u" (some 20000) }

/-- Claim C5 witness: duration 1800 classifies `high`, 300 classifies
`skip`, 20000 classifies `normal`, and an 1800 ms utterance from a speaker
under an active penalty cooldown classifies `skip`. -/
theorem c5_witness :
    (vad5a.voiceStartTimes "u" = some 8200 ∧ (8200 : Nat) ≠ 0 ∧
      (isUserInCooldown emptySRM "u" 10000).1 = false ∧
      (isUserInCooldown srm5d "u" 10000).1 = true) ∧
    (onVoiceEnd vad5a emptySRM "u" 10000).1 = Priority.high ∧
    (onVoiceEnd vad5b emptySRM "u" 10000).1 = Priority.skip ∧
    (onVoiceEnd vad5c emptySRM "u" 30000).1 = Priority.normal ∧
    (onVoiceEnd vad5a srm5d "u" 10000).1 = Priority.skip :=
  ⟨⟨rfl, by decide, by decide, by decide⟩,
   by
     rw [(c5_onVoiceEnd_classification vad5a emptySRM "u" 8200 10000 rfl
       (by decide)).2 (by decide)]
     decide,
   by
     rw [(c5_onVoiceEnd_classification vad5b emptySRM "u" 9700 10000 rfl
       (by decide)).2 (by decide)]
     decide,
   by
     rw [(c5_onVoiceEnd_classification vad5c emptySRM "u" 10000 30000 rfl
       (by decide)).2 (by decide)]
     decide,
   (c5_onVoiceEnd_classification vad5a srm5d "u" 8200 10000 rfl
     (by decide)).1 (by decide)⟩

/-! ### `DiscordVoiceService.subscribeToUser`
(src/services/discord-voice.ts)

Only the subscription-map discipline is modelled: the opened audio stream
is represented by an opaque identifier.  Attaching stream event handlers
is an external effect with no bearing on the map. -/

/-- The `activeSubscriptions` map of `DiscordVoiceService`
(speaker id → active capture subscription). -/
structure DiscordVoiceService where
  activeSubscriptions : String → Option Nat

/-- `DiscordVoiceService.subscribeToUser`: if the speaker already has an
active subscription, return without opening another one (`skipping`);
otherwise open a stream and store it in the map. -/
def subscribeToUser (svc : DiscordVoiceService) (userId : String)
    (stream : Nat) : DiscordVoiceService :=
  match svc.activeSubscriptions userId with
  | some _ => svc
  | none => ⟨upd svc.activeSubscriptions userId (some stream)⟩

/-- Claim C7: a speaking-start event for a speaker that already has an
active capture subscription is ignored: no second subscription is opened
and the subscription map (indeed the whole service state) is unchanged, so
the map — which by construction holds at most one subscription per
speaker — keeps the existing one. -/
theorem c7_subscribeToUser_idempotent (svc : DiscordVoiceService)
    (userId : String) (stream x : Nat)
    (h : svc.activeSubscriptions userId = some x) :
    subscribeToUser svc userId stream = svc ∧
    (subscribeToUser svc userId stream).activeSubscriptions userId = some x := by
  unfold subscribeToUser
  simp [h]

/-- A service with an active subscription (stream 1) for speaker "alice". -/
def svc7 : DiscordVoiceService := ⟨upd (fun _ => none) "alice" (some 1)⟩

/-- Claim C7 witness: a duplicate start event for "alice" with a would-be
new stream 2 leaves the state unchanged and keeps stream 1. -/
theorem c7_witness :
    svc7.activeSubscriptions "alice" = some 1 ∧
    subscribeToUser svc7 "alice" 2 = svc7 ∧
    (subscribeToUser svc7 "alice" 2).activeSubscriptions "alice" = some 1 :=
  ⟨rfl, c7_subscribeToUser_idempotent svc7 "alice" 2 1 rfl⟩
